import Mathlib

/-!
Verification of the crawl-and-reconcile pipeline of the Chemist Warehouse
price tracker (src/server/crawler.ts, src/server/db.ts, src/server/routers.ts).

Embedding conventions:
* DB decimal strings (`decimal(10,2)` columns, `String(x)` / `parseFloat(y)`
  round trips) are modeled as `Option ℚ`; `String(q)` followed by `parseFloat`
  is the identity on the rational value.
* JS truthiness on a parsed price holds iff the price is present and nonzero;
  truthiness on a nullable string holds iff it is present (and, for the image
  fields that the scraper normalizes with `|| undefined`, nonempty) — those
  fields are `Option String` with `none` covering the falsy cases.
* Asynchronous persistence calls are modeled as entries appended to an
  explicit effect trace; the database itself never errors in the model
  (a live connection is assumed).
* Wall-clock values (`new Date()`) are supplied by the environment as `ℕ`
  millisecond timestamps.
-/

namespace CWTracker

/-- Job status values as written by the server code: `db.ts` and `crawler.ts`
also write the value `stopped`, which the drizzle schema enum omits. -/
inductive JobStatus
  | pending
  | running
  | completed
  | failed
  | stopped
deriving DecidableEq, Repr

/-- The four notification types of the `notifications` table enum. -/
inductive NotifType
  | new_sale
  | sale_ended
  | price_drop
  | price_increase
deriving DecidableEq, Repr

/-- A stored row of the `products` table (drizzle/schema.ts lines 57-73),
restricted to the columns the crawl pipeline reads or writes. -/
structure Product where
  id : ℕ
  name : String
  brand : Option String
  sku : Option String
  url : String
  imageUrl : Option String
  category : String
  currentPrice : Option ℚ
  originalPrice : Option ℚ
  isOnSale : Bool
  discountPercent : Option ℚ
  isActive : Bool
  lastCrawledAt : Option ℕ
deriving DecidableEq, Repr

/-- The CrawledProductData interface of crawler.ts lines 23-33: every field
optional. -/
structure CrawledProductData where
  name : Option String
  brand : Option String
  currentPrice : Option ℚ
  originalPrice : Option ℚ
  isOnSale : Option Bool
  discountPercent : Option ℚ
  imageUrl : Option String
  sku : Option String
  url : Option String
deriving DecidableEq, Repr

/-- The three crawler settings read at the start of runCrawl (crawler.ts lines
372-378), after string parsing: price_drop_threshold (default 5),
price_increase_threshold (default 10), notify_on_sale (default true). The
string parsing itself is the environment boundary of the model. -/
structure DetectSettings where
  priceDrop : ℚ
  priceIncrease : ℚ
  notifyOnSale : Bool
deriving DecidableEq, Repr

/-- JS `Math.abs` on a rational value. -/
def jsAbs (x : ℚ) : ℚ :=
  if x < 0 then -x else x

/-- JS `Math.round`: round half toward positive infinity, `⌊x + 1/2⌋`,
phrased through the executable `Rat.floor`. -/
def jsRound (x : ℚ) : ℤ :=
  Rat.floor (x + 1/2)

/-- calculateDiscountPercent (crawler.ts lines 100-103). -/
def calculateDiscountPercent (original current : ℚ) : ℚ :=
  if original ≤ 0 then 0
  else (jsRound ((original - current) / original * 10000) : ℚ) / 100

/-- Helper for extractSkuFromUrl: leftmost-match scan of the character list
for the literal "/buy/" followed by a nonempty digit run and a slash. -/
def skuScan : List Char → Option String
  | [] => none
  | c :: rest =>
    if "/buy/".toList.isPrefixOf (c :: rest) then
      let after := (c :: rest).drop 5
      let ds := after.takeWhile Char.isDigit
      if ds.isEmpty then skuScan rest
      else
        match after.drop ds.length with
        | '/' :: _ => some (String.mk ds)
        | _ => skuScan rest
    else skuScan rest

/-- extractSkuFromUrl (crawler.ts lines 105-108): leftmost match of the regex
(slash, buy, slash, a digit group, slash), returning the digit group. -/
def extractSkuFromUrl (url : String) : Option String :=
  skuScan url.toList

/-- One product card extracted in the browser by the pageObj.evaluate block of
scrapeCategoryPage (crawler.ts lines 178-249), after the price strings have
gone through parsePrice (the string-to-number side is the browser boundary:
`price` holds parsePrice of the price text, `originalPrice` parsePrice of the
second price text). -/
structure RawCard where
  name : String
  url : String
  price : Option ℚ
  originalPrice : Option ℚ
  imageUrl : Option String
  brand : Option String
deriving DecidableEq, Repr

/-- The per-card reconstruction step of scrapeCategoryPage (crawler.ts lines
251-271): a card without a truthy current price is skipped
(`if (!currentPrice) continue`), on-sale is `!!(origPrice && origPrice >
currentPrice)`, and the discount percent is computed only for on-sale cards. -/
def toCrawled (p : RawCard) : Option CrawledProductData :=
  match p.price with
  | none => none
  | some v =>
    if v = 0 then none
    else
      let isOnSale : Bool :=
        match p.originalPrice with
        | some w => decide (w ≠ 0) && decide (w > v)
        | none => false
      some
        { name := some p.name
          brand := p.brand
          currentPrice := some v
          originalPrice := p.originalPrice
          isOnSale := some isOnSale
          discountPercent :=
            if isOnSale then
              match p.originalPrice with
              | some w => some (calculateDiscountPercent w v)
              | none => none
            else none
          imageUrl := p.imageUrl
          sku := extractSkuFromUrl p.url
          url := some p.url }

/-- detectAndNotifyPriceChange (crawler.ts lines 300-360), as the list of
notification types created, in program order. The old price is
`product.currentPrice ? parseFloat(...) : null` — present iff the stored
decimal is non-null — and the later `if (oldPrice && ...)` guard additionally
requires it to be nonzero. A missing or zero new price returns immediately. -/
def detectAndNotifyPriceChange (product : Product) (newData : CrawledProductData)
    (settings : DetectSettings) : List NotifType :=
  let oldPrice : Option ℚ := product.currentPrice
  match newData.currentPrice with
  | none => []
  | some newPrice =>
    if newPrice = 0 then []
    else
      let wasOnSale : Bool := product.isOnSale
      let isNowOnSale : Bool := newData.isOnSale.getD false
      let saleNotifs : List NotifType :=
        if !wasOnSale && isNowOnSale && settings.notifyOnSale then [NotifType.new_sale]
        else if wasOnSale && !isNowOnSale then [NotifType.sale_ended]
        else []
      let priceNotifs : List NotifType :=
        match oldPrice with
        | none => []
        | some op =>
          if op ≠ 0 ∧ jsAbs (op - newPrice) > 1/100 then
            let changePercent := (newPrice - op) / op * 100
            if changePercent < 0 ∧ jsAbs changePercent ≥ settings.priceDrop then
              [NotifType.price_drop]
            else if changePercent > 0 ∧ changePercent ≥ settings.priceIncrease then
              [NotifType.price_increase]
            else []
          else []
      saleNotifs ++ priceNotifs

/-- Effect of the updateProduct call on the stored row (crawler.ts lines
441-448). Fields passed as `undefined` (original price / discount percent when
the new data lacks a truthy value) are omitted from the drizzle SET clause and
keep their stored values; the image keeps the stored one when the new data has
none (`product.imageUrl || existing.imageUrl`). The caller guarantees a truthy
`product.currentPrice` (guard at line 427). -/
def applyUpdate (existing : Product) (d : CrawledProductData) (now : ℕ) : Product :=
  { existing with
    currentPrice := d.currentPrice
    originalPrice :=
      match d.originalPrice with
      | some w => if w = 0 then existing.originalPrice else some w
      | none => existing.originalPrice
    isOnSale := d.isOnSale.getD false
    discountPercent :=
      match d.discountPercent with
      | some q => if q = 0 then existing.discountPercent else some q
      | none => existing.discountPercent
    imageUrl :=
      match d.imageUrl with
      | some s => some s
      | none => existing.imageUrl
    lastCrawledAt := some now }

/-- Effect of the createProduct call (crawler.ts lines 461-474): untruthy
original price and discount percent are stored as null, the product is created
active in the crawled category. The database assigns the row id. -/
def applyCreate (d : CrawledProductData) (cat : String) (newId : ℕ) (now : ℕ) : Product :=
  { id := newId
    name := d.name.getD ""
    brand := d.brand
    sku := d.sku
    url := d.url.getD ""
    imageUrl := d.imageUrl
    category := cat
    currentPrice := d.currentPrice
    originalPrice :=
      match d.originalPrice with
      | some w => if w = 0 then none else some w
      | none => none
    isOnSale := d.isOnSale.getD false
    discountPercent :=
      match d.discountPercent with
      | some q => if q = 0 then none else some q
      | none => none
    isActive := true
    lastCrawledAt := some now }

/-- The on-sale storage invariant of spec section 3: `isOnSale` holds exactly
when an original price is stored and exceeds the stored current price. -/
def saleInvariantB (p : Product) : Bool :=
  p.isOnSale ==
    (match p.originalPrice, p.currentPrice with
     | some w, some v => decide (w > v)
     | _, _ => false)

/-- One entry of the CATEGORY_URLS table (crawler.ts lines 60-85). -/
structure CatInfo where
  id : ℕ
  slug : String
deriving DecidableEq, Repr

/-- The static CATEGORY_URLS mapping of crawler.ts lines 60-85. -/
def CATEGORY_URLS : List (String × List CatInfo) :=
  [ ("beauty_skincare",
      [⟨300026, "skincare-tools"⟩, ⟨300019, "skincare"⟩, ⟨300022, "face-care"⟩,
       ⟨300023, "body-care"⟩, ⟨300024, "hair-care"⟩, ⟨300025, "sun-care"⟩]),
    ("adult_health",
      [⟨500019, "mens-health"⟩, ⟨500020, "womens-health"⟩,
       ⟨500021, "vitamins-supplements"⟩]),
    ("childrens_health",
      [⟨600010, "baby-care"⟩, ⟨600011, "childrens-vitamins"⟩]),
    ("vegan_health", [⟨700010, "vegan-supplements"⟩]),
    ("natural_soap", [⟨800010, "natural-soap"⟩, ⟨800011, "body-wash"⟩]) ]

/-- Lookup `CATEGORY_URLS[cat] || []` (crawler.ts line 416). -/
def categoryInfos (cat : String) : List CatInfo :=
  match CATEGORY_URLS.find? (fun kv => kv.fst == cat) with
  | some kv => kv.snd
  | none => []

/-- Result of rendering one category page: whether navigation and extraction
succeeded, the extracted cards, and whether a next-page affordance exists. -/
structure PageResult where
  ok : Bool
  cards : List RawCard
  hasNextPage : Bool

/-- Record of one page fetch that the crawl actually started: category id,
page number, and the value of the global fetch clock when it started. -/
structure PageFetch where
  categoryId : ℕ
  page : ℕ
  time : ℕ
deriving DecidableEq, Repr

/-- A persistence side effect of a crawl run, in program order. `finalizeJob`
is the single updateCrawlJob call of crawler.ts lines 520-525, which also
persists the completion timestamp; `updateJobTotal` is the totalProducts
update of line 504; `ownerNotify` the notifyOwner call of lines 529-535. -/
inductive Effect
  | createJob (status : JobStatus)
  | updateJobTotal (jobId : ℕ) (total : ℕ)
  | finalizeJob (jobId : ℕ) (status : JobStatus) (crawled failed : ℕ)
  | productUpdate (id : ℕ) (p : Product)
  | historyAppend (id : ℕ) (price : ℚ)
  | notifCreate (id : ℕ) (t : NotifType)
  | productCreate (p : Product)
  | ownerNotify
deriving DecidableEq, Repr

/-- The three counters of runCrawl (crawler.ts lines 393-395). -/
structure CrawlCounts where
  crawled : ℕ
  failed : ℕ
  newProds : ℕ
deriving DecidableEq, Repr

/-- The page loop of scrapeCategoryPage (crawler.ts lines 164-290) with an
explicit fetch clock `t` that advances by one per page fetch. The loop never
consults the crawl stop flag. The first argument counts the iterations the
`page <= maxPages` bound still allows (structural recursion on it); `page` is
the current page number. A page error drops that page and breaks; an ok page
contributes its parsed cards and the loop continues only when a next-page
affordance exists and the raw card list was nonempty. -/
def scrapeGo (env : ℕ → PageResult) (catId : ℕ) :
    ℕ → ℕ → ℕ → List CrawledProductData × List PageFetch × ℕ
  | 0, _, t => ([], [], t)
  | remaining + 1, page, t =>
    let r := env t
    let fetch : PageFetch := ⟨catId, page, t⟩
    if r.ok then
      let prods := r.cards.filterMap toCrawled
      if !r.hasNextPage || r.cards.isEmpty then (prods, [fetch], t + 1)
      else
        let rest := scrapeGo env catId remaining (page + 1) (t + 1)
        (prods ++ rest.1, fetch :: rest.2.1, rest.2.2)
    else ([], [fetch], t + 1)

/-- scrapeCategoryPage (crawler.ts lines 147-296): pages start at 1, so the
bound allows exactly maxPages iterations. -/
def scrapeCategoryPage (env : ℕ → PageResult) (catId maxPages t : ℕ) :
    List CrawledProductData × List PageFetch × ℕ :=
  scrapeGo env catId maxPages 1 t

/-- Environment of one runCrawl invocation: what the network returns at each
tick of the fetch clock, whether browser acquisition for the scrape starting at
a tick throws, the value of the `_crawlStopped` flag over the fetch clock
(set by stopCrawl at some point during the run, monotone within a run), the
stored inventory, the parsed settings, the insertId the job insert returns,
and the current wall-clock milliseconds. -/
structure CrawlEnv where
  pages : ℕ → PageResult
  scrapeThrows : ℕ → Bool
  stop : ℕ → Bool
  existingProducts : List Product
  settings : DetectSettings
  insertId : ℕ
  now : ℕ

/-- The options argument of runCrawl (crawler.ts lines 364-369). -/
structure CrawlOptions where
  category : Option String
  jobType : Option String
  productIds : Option (List ℕ)
  discoverNew : Option Bool
deriving Repr

/-- Mutable state threaded through the discovery loops: fetch clock, counters,
the in-memory normalized-URL set (crawler.ts line 409, grown at line 475), the
effect trace, and the record of started page fetches. -/
structure DiscoState where
  t : ℕ
  counts : CrawlCounts
  urls : List String
  effects : List Effect
  fetches : List PageFetch

/-- The per-discovered-product reconciliation step (crawler.ts lines 426-479):
skip records without truthy url, name and current price; for a known
normalized URL, look the product up in the in-memory list, detect changes
against the pre-update row, update it and append a price-history entry; for an
unseen URL, create the product (the model uses id 0 for the store-assigned id)
and extend the URL set. A set hit whose row is missing from the list (a URL
created earlier in the same run) does nothing. -/
def reconcileOne (inventory : List Product) (settings : DetectSettings)
    (cat : String) (now : ℕ) (st : DiscoState) (d : CrawledProductData) : DiscoState :=
  match d.url, d.name, d.currentPrice with
  | some url, some nm, some price =>
    if url.isEmpty || nm.isEmpty || price == 0 then st
    else
      let normalizedUrl := url.toLower
      if st.urls.contains normalizedUrl then
        match inventory.find? (fun p => p.url.toLower == normalizedUrl) with
        | some existing =>
          let notifs := detectAndNotifyPriceChange existing d settings
          let updated := applyUpdate existing d now
          { st with
            effects := st.effects ++ notifs.map (Effect.notifCreate existing.id)
              ++ [Effect.productUpdate existing.id updated,
                  Effect.historyAppend existing.id price]
            counts := { st.counts with crawled := st.counts.crawled + 1 } }
        | none => st
      else
        { st with
          effects := st.effects ++ [Effect.productCreate (applyCreate d cat 0 now)]
          urls := normalizedUrl :: st.urls
          counts := { st.counts with
            crawled := st.counts.crawled + 1
            newProds := st.counts.newProds + 1 } }
  | _, _, _ => st

/-- The sub-category loop of runCrawl (crawler.ts lines 417-486): the stop
flag is polled before each sub-category; a browser-level scrape failure is
caught and counted as one failure; an ok scrape (always with maxPages = 2,
line 423) feeds every discovered record through reconciliation. -/
def subCatLoop (env : CrawlEnv) (inventory : List Product) (cat : String) :
    List CatInfo → DiscoState → DiscoState
  | [], st => st
  | ci :: rest, st =>
    if env.stop st.t then st
    else if env.scrapeThrows st.t then
      subCatLoop env inventory cat rest
        { st with t := st.t + 1
                  counts := { st.counts with failed := st.counts.failed + 1 } }
    else
      let scr := scrapeCategoryPage env.pages ci.id 2 st.t
      let st2 := { st with t := scr.2.2, fetches := st.fetches ++ scr.2.1 }
      let st3 := scr.1.foldl (reconcileOne inventory env.settings cat env.now) st2
      subCatLoop env inventory cat rest st3

/-- The category loop of runCrawl (crawler.ts lines 411-487): the stop flag
is polled before each category. -/
def catLoop (env : CrawlEnv) (inventory : List Product) :
    List String → DiscoState → DiscoState
  | [], st => st
  | cat :: rest, st =>
    if env.stop st.t then st
    else catLoop env inventory rest (subCatLoop env inventory cat (categoryInfos cat) st)

/-- The target category list (crawler.ts lines 400-402): a truthy category
other than "all" selects itself, otherwise all keys of CATEGORY_URLS. -/
def targetCategories (options : CrawlOptions) : List String :=
  match options.category with
  | some c => if c ≠ "all" ∧ c ≠ "" then [c] else CATEGORY_URLS.map (fun kv => kv.fst)
  | none => CATEGORY_URLS.map (fun kv => kv.fst)

/-- Phase 2 selection (crawler.ts lines 491-500): active products matching the
requested category, then either the explicitly requested ids or any product
not crawled within the last hour (3600000 ms; ℕ subtraction truncates at zero,
matching the JS comparison for timestamps up to the current time). -/
def phase2Selected (env : CrawlEnv) (options : CrawlOptions) : List Product :=
  let catFilter : Option String :=
    match options.category with
    | some c => if c ≠ "all" ∧ c ≠ "" then some c else none
    | none => none
  let manual := env.existingProducts.filter (fun p =>
    (match catFilter with
     | some c => p.category == c
     | none => true) && p.isActive)
  match options.productIds with
  | some ids => manual.filter (fun p => ids.contains p.id)
  | none =>
    manual.filter (fun p =>
      match p.lastCrawledAt with
      | none => true
      | some ts => decide (3600000 < env.now - ts))

/-- The two process-wide globals of crawler.ts lines 41-42. -/
structure GlobalFlags where
  currentJobId : Option ℕ
  crawlStopped : Bool
deriving DecidableEq, Repr

/-- The tail of runCrawl after the try block (crawler.ts lines 510-525): the
catch adds one failure when the body threw; the finally block writes the
globals (`_currentJobId = null; _crawlStopped = false`); only then is
`const wasStopped = _crawlStopped` read from the globals, and the single
finalization update persists the status, the counts and the completion
timestamp. `g0` is the global state when the try/catch completes (its
`crawlStopped` is true iff stopCrawl ran during the job). -/
def runCrawlFinalize (jobId crawled failed : ℕ) (threw : Bool) (g0 : GlobalFlags) :
    GlobalFlags × List Effect × JobStatus :=
  let failed2 := if threw then failed + 1 else failed
  let g1 : GlobalFlags := { currentJobId := none, crawlStopped := false }
  let wasStopped := g1.crawlStopped
  let status : JobStatus :=
    if wasStopped then JobStatus.stopped
    else if 0 < failed2 ∧ crawled = 0 then JobStatus.failed
    else JobStatus.completed
  (g1, [Effect.finalizeJob jobId status crawled failed2], status)

/-- The observable outcome of one runCrawl invocation. -/
structure RunResult where
  jobId : ℕ
  success : Bool
  status : JobStatus
  counts : CrawlCounts
  effects : List Effect
  fetches : List PageFetch
  flags : GlobalFlags

/-- The active inventory loaded once per job (crawler.ts line 408). -/
def activeInventory (env : CrawlEnv) : List Product :=
  env.existingProducts.filter (fun p => p.isActive)

/-- State at the start of the job body: fetch clock zero, zero counters, the
normalized-URL set of the active inventory (crawler.ts line 409), and the
job-creation effect already recorded (crawler.ts lines 380-385). -/
def initDisco (env : CrawlEnv) : DiscoState :=
  { t := 0
    counts := ⟨0, 0, 0⟩
    urls := (activeInventory env).map (fun p => p.url.toLower)
    effects := [Effect.createJob JobStatus.running]
    fetches := [] }

/-- Phase 1 (crawler.ts lines 398-488): discovery runs unless `discoverNew`
is exactly false (`options.discoverNew !== false`, default true). -/
def discoPhase (env : CrawlEnv) (options : CrawlOptions) : DiscoState :=
  if options.discoverNew ≠ some false then
    catLoop env (activeInventory env) (targetCategories options) (initDisco env)
  else initDisco env

/-- runCrawl (crawler.ts lines 364-544): create the job row (status running),
register the job id and clear the stop flag, run Phase 1 discovery, run the
Phase 2 totalProducts update when discovery was skipped and the refresh
selection is nonempty (crawler.ts lines 502-508), then finalize (the model
body never throws: page and browser errors are absorbed by the loops, so the
catch path is exercised through `runCrawlFinalize` directly) and emit the
best-effort owner summary when anything was crawled or created. -/
def runCrawl (env : CrawlEnv) (options : CrawlOptions) : RunResult :=
  let jobId := env.insertId
  let stB := discoPhase env options
  let selected := phase2Selected env options
  let stC :=
    if 0 < selected.length ∧ options.discoverNew = some false then
      { stB with effects := stB.effects ++ [Effect.updateJobTotal jobId selected.length] }
    else stB
  let g0 : GlobalFlags := { currentJobId := some jobId, crawlStopped := env.stop stC.t }
  let fin := runCrawlFinalize jobId stC.counts.crawled stC.counts.failed false g0
  let didWork := 0 < stC.counts.crawled ∨ 0 < stC.counts.newProds
  { jobId := jobId
    success := decide didWork
    status := fin.2.2
    counts := stC.counts
    effects := stC.effects ++ fin.2.1 ++ (if didWork then [Effect.ownerNotify] else [])
    fetches := stC.fetches
    flags := fin.1 }

/-- In-process server state for the trigger surface: the two globals of
crawler.ts, the crawl_jobs rows, and the id the next insert will return. -/
structure ServerState where
  currentJobId : Option ℕ
  crawlStopped : Bool
  jobs : List (ℕ × JobStatus)
  nextId : ℕ
deriving DecidableEq, Repr

/-- crawlRouter.trigger (routers.ts lines 262-278) fires runCrawl in the
background without consulting isCrawlRunning, and runCrawl unconditionally
creates the job row with status running and registers it (crawler.ts lines
380-391). This models a trigger request up to that registration point, the
earlier job still being live. -/
def crawlTrigger (s : ServerState) : ServerState :=
  { currentJobId := some s.nextId
    crawlStopped := false
    jobs := s.jobs ++ [(s.nextId, JobStatus.running)]
    nextId := s.nextId + 1 }

/-- isCrawlRunning (crawler.ts lines 55-57). -/
def isCrawlRunning (s : ServerState) : Bool :=
  s.currentJobId.isSome

/-- Number of crawl_jobs rows currently in the running state. -/
def runningJobs (s : ServerState) : ℕ :=
  s.jobs.countP (fun j => j.snd == JobStatus.running)

/-- A stored crawl_jobs row, restricted to the columns resetStuckJobs touches. -/
structure StoredJob where
  id : ℕ
  status : JobStatus
  completedAt : Option ℕ
deriving DecidableEq, Repr

/-- resetStuckJobs (db.ts lines 288-300): UPDATE crawl_jobs SET status =
stopped, completedAt = now() WHERE status = running, returning affectedRows
(every matched row changes, since running differs from stopped). -/
def resetStuckJobs (now : ℕ) (jobs : List StoredJob) : List StoredJob × ℕ :=
  (jobs.map (fun j =>
     if j.status = JobStatus.running then
       { j with status := JobStatus.stopped, completedAt := some now }
     else j),
   jobs.countP (fun j => j.status == JobStatus.running))

/-- Recognizer for the finalization update among effects. -/
def isFinalizeEffect : Effect → Bool
  | Effect.finalizeJob _ _ _ _ => true
  | _ => false

/-- Recognizer for effects that touch the inventory side of the store:
product rows, price history, or notification rows. -/
def isInventoryEffect : Effect → Bool
  | Effect.productUpdate _ _ => true
  | Effect.productCreate _ => true
  | Effect.historyAppend _ _ => true
  | Effect.notifCreate _ _ => true
  | _ => false

/-! Concrete inputs used to settle individual claims. -/

/-- A discovered card carrying a current price but no original price. -/
def rawNoOrig : RawCard :=
  { name := "Vitamin C", url := "u/buy/1/x", price := some 25,
    originalPrice := none, imageUrl := none, brand := none }

/-- The crawled record `toCrawled` produces from `rawNoOrig`. -/
def dNoOrig : CrawledProductData :=
  { name := some "Vitamin C", brand := none, currentPrice := some 25,
    originalPrice := none, isOnSale := some false, discountPercent := none,
    imageUrl := none, sku := some "1", url := some "u/buy/1/x" }

/-- A stored product currently on sale: original 30 over current 20. -/
def prodOnSale : Product :=
  { id := 1, name := "Vitamin C", brand := none, sku := some "1",
    url := "u/buy/1/x", imageUrl := none, category := "adult_health",
    currentPrice := some 20, originalPrice := some 30, isOnSale := true,
    discountPercent := some (3333/100), isActive := true, lastCrawledAt := some 0 }

/-- An environment whose stop flag is set from the very start of the run. -/
def envStopped : CrawlEnv :=
  { pages := fun _ => ⟨true, [], false⟩
    scrapeThrows := fun _ => false
    stop := fun _ => true
    existingProducts := []
    settings := ⟨5, 10, true⟩
    insertId := 1
    now := 0 }

/-- Default manual options: no category, no product ids, discovery on. -/
def optsDefault : CrawlOptions :=
  { category := none, jobType := some "manual", productIds := none, discoverNew := none }

/-- An environment in which page 1 of the single vegan category yields one
card and advertises a next page, and a stop request arrives during the first
fetch, so the flag reads true from tick 1 on. -/
def envMidStop : CrawlEnv :=
  { pages := fun t => if t = 0 then ⟨true, [rawNoOrig], true⟩ else ⟨true, [], false⟩
    scrapeThrows := fun _ => false
    stop := fun t => decide (1 ≤ t)
    existingProducts := []
    settings := ⟨5, 10, true⟩
    insertId := 1
    now := 0 }

/-- Options targeting the single-entry vegan_health category. -/
def optsVegan : CrawlOptions :=
  { category := some "vegan_health", jobType := some "manual",
    productIds := none, discoverNew := none }

/-- Options that skip discovery. -/
def optsNoDiscover : CrawlOptions :=
  { category := none, jobType := some "manual", productIds := none,
    discoverNew := some false }

/-- An environment holding one active product last crawled two hours before
the current wall-clock time. -/
def envOneStale : CrawlEnv :=
  { pages := fun _ => ⟨true, [], false⟩
    scrapeThrows := fun _ => false
    stop := fun _ => false
    existingProducts := [prodOnSale]
    settings := ⟨5, 10, true⟩
    insertId := 7
    now := 7200000 }

/-- A stored product priced at 100 and not on sale. -/
def prodAt100 : Product :=
  { id := 2, name := "Zinc", brand := none, sku := none, url := "u/buy/3/z",
    imageUrl := none, category := "adult_health", currentPrice := some 100,
    originalPrice := none, isOnSale := false, discountPercent := none,
    isActive := true, lastCrawledAt := some 0 }

/-- New data at price 95: a drop of exactly 5 percent from 100. -/
def dAt95 : CrawledProductData :=
  { name := some "Zinc", brand := none, currentPrice := some 95,
    originalPrice := none, isOnSale := some false, discountPercent := none,
    imageUrl := none, sku := none, url := some "u/buy/3/z" }

/-- New data at price 95.01: a drop of 4.99 percent from 100, one
one-hundredth of a percentage point under the 5 percent threshold. -/
def dAt9501 : CrawledProductData :=
  { name := some "Zinc", brand := none, currentPrice := some (9501/100),
    originalPrice := none, isOnSale := some false, discountPercent := none,
    imageUrl := none, sku := none, url := some "u/buy/3/z" }

/-- Thresholds: drop 5 percent, increase 10 percent, sale alerts on. -/
def settingsDefault : DetectSettings := ⟨5, 10, true⟩

/-- Thresholds with the notify-on-sale setting turned off. -/
def settingsNoSaleAlerts : DetectSettings := ⟨5, 10, false⟩

/-! Shared bridge lemmas and loop invariants. -/

/-- jsAbs agrees with the absolute value on ℚ. -/
lemma jsAbs_eq (x : ℚ) : jsAbs x = |x| := by
  by_cases h : x < 0
  · rw [jsAbs, if_pos h, abs_of_neg h]
  · rw [jsAbs, if_neg h, abs_of_nonneg (not_lt.mp h)]

/-- jsRound agrees with Mathlib round (round half toward positive infinity). -/
lemma jsRound_eq (x : ℚ) : jsRound x = round x := by
  rw [jsRound, Rat.floor_def', ← Rat.floor_def, ← round_eq]

/-- Notification effects are never the finalization update. -/
lemma countFin_notifs (id : ℕ) (l : List NotifType) :
    (l.map (Effect.notifCreate id)).countP isFinalizeEffect = 0 := by
  induction l with
  | nil => rfl
  | cons a l ih => simp [List.countP_cons, isFinalizeEffect, ih]

/-- Reconciling one record adds no finalization effect. -/
lemma countFin_reconcileOne (inv : List Product) (s : DetectSettings)
    (cat : String) (now : ℕ) (st : DiscoState) (d : CrawledProductData) :
    ((reconcileOne inv s cat now st d).effects).countP isFinalizeEffect
      = st.effects.countP isFinalizeEffect := by
  obtain ⟨nm, br, cp, opr, os, dp, iu, sk, u⟩ := d
  rcases u with _ | u
  · rfl
  · rcases nm with _ | nm
    · rfl
    · rcases cp with _ | cp
      · rfl
      · simp only [reconcileOne]
        split
        · rfl
        · split
          · split
            · simp [List.countP_append, List.countP_cons, countFin_notifs, isFinalizeEffect]
            · rfl
          · simp [List.countP_append, List.countP_cons, isFinalizeEffect]

/-- Folding reconciliation over a batch adds no finalization effect. -/
lemma countFin_foldl (inv : List Product) (s : DetectSettings) (cat : String)
    (now : ℕ) (ds : List CrawledProductData) :
    ∀ st : DiscoState,
      ((ds.foldl (reconcileOne inv s cat now) st).effects).countP isFinalizeEffect
        = st.effects.countP isFinalizeEffect := by
  induction ds with
  | nil => intro st; rfl
  | cons d ds ih => intro st; rw [List.foldl_cons, ih, countFin_reconcileOne]

/-- The sub-category loop adds no finalization effect. -/
lemma countFin_subCatLoop (env : CrawlEnv) (inv : List Product) (cat : String) :
    ∀ (infos : List CatInfo) (st : DiscoState),
      ((subCatLoop env inv cat infos st).effects).countP isFinalizeEffect
        = st.effects.countP isFinalizeEffect := by
  intro infos
  induction infos with
  | nil => intro st; rfl
  | cons ci rest ih =>
    intro st
    simp only [subCatLoop]
    split
    · rfl
    · split
      · rw [ih]
      · rw [ih, countFin_foldl]

/-- The category loop adds no finalization effect. -/
lemma countFin_catLoop (env : CrawlEnv) (inv : List Product) :
    ∀ (targets : List String) (st : DiscoState),
      ((catLoop env inv targets st).effects).countP isFinalizeEffect
        = st.effects.countP isFinalizeEffect := by
  intro targets
  induction targets with
  | nil => intro st; rfl
  | cons cat rest ih =>
    intro st
    simp only [catLoop]
    split
    · rfl
    · rw [ih, countFin_subCatLoop]

/-- Phase 1 leaves the job-creation effect as the only job-store effect and in
particular records no finalization. -/
lemma countFin_discoPhase (env : CrawlEnv) (opts : CrawlOptions) :
    ((discoPhase env opts).effects).countP isFinalizeEffect = 0 := by
  rw [discoPhase]
  split
  · rw [countFin_catLoop]; rfl
  · rfl

/-- The finalization status computation never yields `stopped`, whatever the
flag was when the body finished and whether or not the body threw: the
finally block has already cleared the flag when it is read. -/
lemma runCrawlFinalize_status (jobId c f : ℕ) (threw : Bool) (g0 : GlobalFlags) :
    (runCrawlFinalize jobId c f threw g0).2.2 ≠ JobStatus.stopped := by
  simp only [runCrawlFinalize]
  split
  · simp_all
  · split <;> split <;> simp

/-- A sub-category loop entered with the stop flag set does nothing. -/
lemma subCatLoop_stopped (env : CrawlEnv) (inv : List Product) (cat : String)
    (infos : List CatInfo) (st : DiscoState) (h : env.stop st.t = true) :
    subCatLoop env inv cat infos st = st := by
  cases infos with
  | nil => rfl
  | cons ci rest => simp [subCatLoop, h]

/-- A category loop entered with the stop flag set does nothing. -/
lemma catLoop_stopped (env : CrawlEnv) (inv : List Product)
    (targets : List String) (st : DiscoState) (h : env.stop st.t = true) :
    catLoop env inv targets st = st := by
  cases targets with
  | nil => rfl
  | cons cat rest => simp [catLoop, h]

/-- With the stop flag set for the whole run, Phase 1 does nothing. -/
lemma discoPhase_stopped (env : CrawlEnv) (opts : CrawlOptions)
    (h : ∀ u, env.stop u = true) : discoPhase env opts = initDisco env := by
  rw [discoPhase]
  split
  · exact catLoop_stopped env _ _ _ (h _)
  · rfl

/-! Claim theorems. -/

/-- C1: the claim says a run during which the stop flag was set finalizes
with status `stopped`, else `failed` when failedCount > 0 and crawledCount = 0,
else `completed`, and that the finalization update runs exactly once. The
code finalizes exactly once (also through the catch path), but its status is
never `stopped`: the finally block clears `_crawlStopped` before
`const wasStopped = _crawlStopped` reads it, so even the run whose stop flag
is set the whole time (envStopped) finalizes as `completed`. -/
theorem runCrawl_finalization :
    (∀ (env : CrawlEnv) (opts : CrawlOptions),
      (runCrawl env opts).status ≠ JobStatus.stopped ∧
      ((runCrawl env opts).effects).countP isFinalizeEffect = 1) ∧
    (∀ (jobId c f : ℕ) (threw : Bool) (g0 : GlobalFlags),
      (runCrawlFinalize jobId c f threw g0).2.2 ≠ JobStatus.stopped ∧
      ((runCrawlFinalize jobId c f threw g0).2.1).countP isFinalizeEffect = 1) ∧
    envStopped.stop 0 = true ∧
    (runCrawl envStopped optsDefault).status = JobStatus.completed := by
  refine ⟨?_, ?_, rfl, by decide⟩
  · intro env opts
    constructor
    · simp only [runCrawl]
      exact runCrawlFinalize_status _ _ _ _ _
    · simp only [runCrawl]
      rw [List.countP_append, List.countP_append]
      have h1 : ((if 0 < (phase2Selected env opts).length ∧ opts.discoverNew = some false then
          { discoPhase env opts with effects := (discoPhase env opts).effects
              ++ [Effect.updateJobTotal env.insertId (phase2Selected env opts).length] }
        else discoPhase env opts).effects).countP isFinalizeEffect = 0 := by
        split
        · simp [List.countP_append, List.countP_cons, isFinalizeEffect, countFin_discoPhase]
        · exact countFin_discoPhase env opts
      rw [h1]
      have h2 : ∀ b : Prop, ∀ inst : Decidable b,
          ((if b then [Effect.ownerNotify] else []).countP isFinalizeEffect) = 0 := by
        intro b inst
        split <;> simp [isFinalizeEffect]
      rw [h2]
      simp [runCrawlFinalize, List.countP_cons, isFinalizeEffect]
  · intro jobId c f threw g0
    exact ⟨runCrawlFinalize_status _ _ _ _ _,
      by simp [runCrawlFinalize, List.countP_cons, isFinalizeEffect]⟩

/-- C2: the claim says starting a crawl while one is running does not create
a second concurrently-active job. Neither crawlRouter.trigger nor runCrawl
consults isCrawlRunning, so a second trigger issued while the first job is
active (isCrawlRunning = true) creates a second job row in the `running`
state: after two triggers from the idle state, two jobs are running. -/
theorem trigger_ignores_running_flag :
    isCrawlRunning (crawlTrigger ⟨none, false, [], 1⟩) = true ∧
    runningJobs (crawlTrigger ⟨none, false, [], 1⟩) = 1 ∧
    isCrawlRunning (crawlTrigger (crawlTrigger ⟨none, false, [], 1⟩)) = true ∧
    runningJobs (crawlTrigger (crawlTrigger ⟨none, false, [], 1⟩)) = 2 := by
  decide

/-- C3 counterexample: the on-sale invariant does not survive every update.
A product stored on sale (original 30 over current 20) reconciled against a
discovered record that has price 25 and no original price ends up with
isOnSale = false but originalPrice = 30 > 25 still stored, because
updateProduct passes `undefined` for a missing original price and the column
keeps its old value. -/
theorem saleInvariant_counterexample :
    toCrawled rawNoOrig = some dNoOrig ∧
    saleInvariantB prodOnSale = true ∧
    saleInvariantB (applyUpdate prodOnSale dNoOrig 99) = false := by
  decide

/-- C3 amended: for every record the scraper discovers, the stored state
satisfies the on-sale invariant after a create, and after an update whenever
the new data carries a nonzero original price or the stored product had no
original price; only an update that drops an original price the store still
holds can break it. -/
theorem saleInvariant_amended (raw : RawCard) (d : CrawledProductData)
    (cat : String) (newId now now2 : ℕ) (e : Product)
    (h : toCrawled raw = some d) :
    saleInvariantB (applyCreate d cat newId now) = true ∧
    ((∃ w, d.originalPrice = some w ∧ w ≠ 0) ∨ e.originalPrice = none →
      saleInvariantB (applyUpdate e d now2) = true) := by
  cases hp : raw.price with
  | none =>
    simp only [toCrawled, hp] at h
    exact Option.noConfusion h
  | some v =>
    by_cases hv : v = 0
    · simp only [toCrawled, hp] at h; rw [if_pos hv] at h; cases h
    · simp only [toCrawled, hp] at h
      rw [if_neg hv] at h
      injection h with h
      subst h
      cases hor : raw.originalPrice with
      | none =>
        constructor
        · simp [applyCreate, saleInvariantB, hor]
        · intro hcase
          rcases hcase with ⟨w, hw, _⟩ | he
          · simp [hor] at hw
          · simp [applyUpdate, saleInvariantB, hor, he]
      | some w =>
        by_cases hw : w = 0
        · constructor
          · simp [applyCreate, saleInvariantB, hor, hw]
          · intro hcase
            rcases hcase with ⟨w2, hw2, hw20⟩ | he
            · simp only [Option.some.injEq] at hw2
              exact absurd (show w2 = 0 by rw [← hw2]; exact hw) hw20
            · simp [applyUpdate, saleInvariantB, hor, hw, he]
        · constructor
          · simp [applyCreate, saleInvariantB, hor, hw]
          · intro hcase
            simp [applyUpdate, saleInvariantB, hor, hw]

/-- C3 witness: the amended invariant applied to a concrete discovered record
with no original price, on the create path. -/
theorem saleInvariant_amended_witness :
    toCrawled rawNoOrig = some dNoOrig ∧
    saleInvariantB (applyCreate dNoOrig "other" 3 11) = true :=
  ⟨by decide, (saleInvariant_amended rawNoOrig dNoOrig "other" 3 11 0 prodAt100 (by decide)).1⟩

/-- C4 counterexample: the stop signal is not checked before each page. In
envMidStop the flag reads true from fetch tick 1 on (a stop request arrives
during the first fetch), yet page 2 of category 700010 is still started at
tick 1, because the page loop of scrapeCategoryPage never polls the flag. -/
theorem stopFlag_page_gap :
    envMidStop.stop 1 = true ∧
    (⟨700010, 2, 1⟩ : PageFetch) ∈ (runCrawl envMidStop optsVegan).fetches := by
  decide

/-- C4 amended: the cooperative stop signal is polled before each category
and before each sub-category scrape; a loop entered with the flag set does
nothing, raises no error and counts no failure — a run whose flag is set
throughout starts no page fetch and ends with zero counters. Pages inside an
already-started sub-category scrape are not gated by the signal. -/
theorem stopFlag_polling_granularity :
    (∀ (env : CrawlEnv) (inv : List Product) (cat : String)
       (infos : List CatInfo) (st : DiscoState),
       env.stop st.t = true → subCatLoop env inv cat infos st = st) ∧
    (∀ (env : CrawlEnv) (inv : List Product)
       (targets : List String) (st : DiscoState),
       env.stop st.t = true → catLoop env inv targets st = st) ∧
    (∀ (env : CrawlEnv) (opts : CrawlOptions),
       (∀ u, env.stop u = true) →
       (runCrawl env opts).fetches = [] ∧
       (runCrawl env opts).counts = ⟨0, 0, 0⟩) := by
  refine ⟨subCatLoop_stopped, catLoop_stopped, ?_⟩
  intro env opts h
  have hd := discoPhase_stopped env opts h
  constructor
  · simp only [runCrawl, hd]
    split <;> rfl
  · simp only [runCrawl, hd]
    split <;> rfl

/-- C4 witness: the always-stopped environment runs zero page fetches. -/
theorem stopFlag_polling_granularity_witness :
    envStopped.stop 0 = true ∧ (runCrawl envStopped optsDefault).fetches = [] :=
  ⟨rfl, (stopFlag_polling_granularity.2.2 envStopped optsDefault (fun _ => rfl)).1⟩

/-- C5: the detector emits `price_drop` iff the stored old price is present,
the absolute difference to the (present, nonzero) new price exceeds 0.01, the
relative change is negative, and its absolute percentage is at least the
price-drop threshold (percentage points, compared with ≥ so an exact-threshold
drop fires); a drop from 100 to 95 at threshold 5 fires, a drop from 100 to
95.01 (one one-hundredth of a percentage point under) does not. A stored old
price of zero never produces a drop: the relative change guard cannot hold. -/
theorem priceDrop_threshold_spec :
    (∀ (p : Product) (d : CrawledProductData) (s : DetectSettings) (v : ℚ),
       d.currentPrice = some v → v ≠ 0 →
       (NotifType.price_drop ∈ detectAndNotifyPriceChange p d s ↔
         ∃ op, p.currentPrice = some op ∧ |op - v| > 1/100 ∧
           (v - op) / op * 100 < 0 ∧ |(v - op) / op * 100| ≥ s.priceDrop)) ∧
    NotifType.price_drop ∈ detectAndNotifyPriceChange prodAt100 dAt95 settingsDefault ∧
    NotifType.price_drop ∉ detectAndNotifyPriceChange prodAt100 dAt9501 settingsDefault := by
  refine ⟨?_, ?_, ?_⟩
  · intro p d s v hv hv0
    simp only [detectAndNotifyPriceChange, hv, if_neg hv0, List.mem_append]
    cases hp : p.currentPrice with
    | none =>
      simp only [hp]
      constructor
      · rintro (hmem | hmem)
        · revert hmem; split <;> simp
        · simp at hmem
      · rintro ⟨op, hop, _⟩
        exact Option.noConfusion hop
    | some op =>
      simp only [hp]
      by_cases hg : op ≠ 0 ∧ jsAbs (op - v) > 1/100
      · rw [if_pos hg]
        by_cases hdrop : (v - op) / op * 100 < 0 ∧ jsAbs ((v - op) / op * 100) ≥ s.priceDrop
        · rw [if_pos hdrop]
          constructor
          · intro _
            exact ⟨op, rfl, by rw [← jsAbs_eq]; exact hg.2, hdrop.1,
              by rw [← jsAbs_eq]; exact hdrop.2⟩
          · intro _
            right; simp
        · rw [if_neg hdrop]
          constructor
          · rintro (hmem | hmem)
            · revert hmem; split <;> simp
            · revert hmem; split <;> simp
          · rintro ⟨op2, hop2, habs, hlt, hge⟩
            injection hop2 with hop2
            subst hop2
            exact absurd ⟨hlt, by rw [jsAbs_eq]; exact hge⟩ hdrop
      · rw [if_neg hg]
        constructor
        · rintro (hmem | hmem)
          · revert hmem; split <;> simp
          · simp at hmem
        · rintro ⟨op2, hop2, habs, hlt, hge⟩
          injection hop2 with hop2
          subst hop2
          rcases not_and_or.mp hg with h0 | habs2
          · push_neg at h0
            rw [h0] at hlt
            simp [div_zero] at hlt
          · exact absurd (by rw [jsAbs_eq]; exact habs) habs2
  · have h : detectAndNotifyPriceChange prodAt100 dAt95 settingsDefault
        = [NotifType.price_drop] := by
      simp only [detectAndNotifyPriceChange, prodAt100, dAt95, settingsDefault, jsAbs]
      norm_num
    rw [h]; simp
  · have h : detectAndNotifyPriceChange prodAt100 dAt9501 settingsDefault = [] := by
      simp only [detectAndNotifyPriceChange, prodAt100, dAt9501, settingsDefault, jsAbs]
      norm_num
    rw [h]; simp

/-- C5 witness: the characterization instantiated at the exact-threshold
drop from 100 to 95 under a 5 percent threshold. -/
theorem priceDrop_threshold_spec_witness :
    NotifType.price_drop ∈ detectAndNotifyPriceChange prodAt100 dAt95 settingsDefault :=
  (priceDrop_threshold_spec.1 prodAt100 dAt95 settingsDefault 95 rfl (by norm_num)).mpr
    ⟨100, rfl,
     by rw [show (100:ℚ) - 95 = 5 by norm_num]; rw [abs_of_pos] <;> norm_num,
     by norm_num,
     by rw [show ((95:ℚ) - 100)/100*100 = -5 by norm_num];
        rw [abs_of_neg] <;> norm_num [settingsDefault]⟩

/-- C6: reconciliation is idempotent with respect to notifications — after
applying a discovered record to the store (update of a known URL or create of
a new one), running change detection of the stored row against the same
record yields no notification at all, because the stored current price and
on-sale flag now equal the record. -/
theorem reconcile_idempotent (e : Product) (d : CrawledProductData) (s : DetectSettings)
    (now now2 : ℕ) (cat : String) (newId : ℕ) :
    detectAndNotifyPriceChange (applyUpdate e d now) d s = [] ∧
    detectAndNotifyPriceChange (applyCreate d cat newId now2) d s = [] := by
  constructor <;>
  · cases hd : d.currentPrice with
    | none => simp [detectAndNotifyPriceChange, applyUpdate, applyCreate, hd]
    | some v =>
      by_cases hv : v = 0
      · simp [detectAndNotifyPriceChange, applyUpdate, applyCreate, hd, hv]
      · simp [detectAndNotifyPriceChange, applyUpdate, applyCreate, hd, hv, jsAbs, sub_self]

/-- C7: whenever the stored product was on sale and the new data is not, and
the new price passes the detector's presence guard (present and nonzero), a
`sale_ended` notification is emitted, for every threshold setting and in
particular regardless of the notify-on-sale flag. -/
theorem saleEnded_unconditional (p : Product) (d : CrawledProductData) (s : DetectSettings)
    (v : ℚ) (hv : d.currentPrice = some v) (hv0 : v ≠ 0) (hold : p.isOnSale = true)
    (hnew : d.isOnSale.getD false = false) :
    NotifType.sale_ended ∈ detectAndNotifyPriceChange p d s := by
  simp only [detectAndNotifyPriceChange, hv, if_neg hv0, List.mem_append]
  left
  simp [hold, hnew]

/-- C7 witness: sale end detected with the notify-on-sale setting off. -/
theorem saleEnded_unconditional_witness :
    prodOnSale.isOnSale = true ∧ settingsNoSaleAlerts.notifyOnSale = false ∧
    NotifType.sale_ended ∈ detectAndNotifyPriceChange prodOnSale dNoOrig settingsNoSaleAlerts :=
  ⟨rfl, rfl, saleEnded_unconditional prodOnSale dNoOrig settingsNoSaleAlerts 25 rfl
    (by norm_num) rfl rfl⟩

/-- C8: calculateDiscountPercent equals round((original - current) / original
* 10000) / 100 for positive original (JS Math.round is Mathlib round on ℚ),
is 0 for original ≤ 0, and evaluates to 25 on (100, 75), to 0 on (0, 10) and
to exactly 33.34 on (29.99, 19.99). -/
theorem calculateDiscountPercent_spec :
    (∀ original current : ℚ, 0 < original →
       calculateDiscountPercent original current =
         (round ((original - current) / original * 10000) : ℚ) / 100) ∧
    (∀ original current : ℚ, original ≤ 0 →
       calculateDiscountPercent original current = 0) ∧
    calculateDiscountPercent 100 75 = 25 ∧
    calculateDiscountPercent 0 10 = 0 ∧
    calculateDiscountPercent (2999/100) (1999/100) = 3334/100 := by
  refine ⟨?_, ?_, ?_, ?_, ?_⟩
  · intro o c h
    rw [calculateDiscountPercent, if_neg (not_le.mpr h), jsRound_eq]
  · intro o c h
    rw [calculateDiscountPercent, if_pos h]
  · rw [calculateDiscountPercent, if_neg (by norm_num), jsRound_eq, round_eq]
    rw [show ((100:ℚ) - 75)/100*10000 + 1/2 = 5001/2 by norm_num]
    rw [show (⌊(5001/2:ℚ)⌋ : ℤ) = 2500 from Int.floor_eq_iff.mpr (by norm_num)]
    norm_num
  · rw [calculateDiscountPercent, if_pos le_rfl]
  · rw [calculateDiscountPercent, if_neg (by norm_num), jsRound_eq, round_eq]
    rw [show ((2999:ℚ)/100 - 1999/100)/(2999/100)*10000 + 1/2 = 20002999/5998 by norm_num]
    rw [show (⌊(20002999/5998:ℚ)⌋ : ℤ) = 3334 from Int.floor_eq_iff.mpr (by norm_num)]
    norm_num

/-- C8 witness: the rounding formula instantiated at original 2, current 1. -/
theorem calculateDiscountPercent_spec_witness :
    (0:ℚ) < 2 ∧
    calculateDiscountPercent 2 1 = (round ((2 - 1) / 2 * 10000 : ℚ) : ℚ) / 100 :=
  ⟨by norm_num, calculateDiscountPercent_spec.1 2 1 (by norm_num)⟩

/-- C9: the stuck-job sweep maps every job whose status is `running` to
status `stopped` with a non-null completion timestamp (preserving its id),
leaves every job in any other status exactly unchanged, and returns the
number of running jobs it changed. -/
theorem resetStuckJobs_spec (now : ℕ) (jobs : List StoredJob) :
    ((resetStuckJobs now jobs).1).length = jobs.length ∧
    (∀ (i : ℕ) (j jr : StoredJob),
      jobs[i]? = some j → ((resetStuckJobs now jobs).1)[i]? = some jr →
      (j.status = JobStatus.running →
        jr.status = JobStatus.stopped ∧ jr.completedAt ≠ none ∧ jr.id = j.id) ∧
      (j.status ≠ JobStatus.running → jr = j)) ∧
    (resetStuckJobs now jobs).2
      = (jobs.filter (fun j => j.status == JobStatus.running)).length := by
  refine ⟨by simp [resetStuckJobs], ?_, by simp [resetStuckJobs, List.countP_eq_length_filter]⟩
  intro i j jr hj hjr
  rw [resetStuckJobs] at hjr
  simp only [List.getElem?_map, hj, Option.map_some'] at hjr
  constructor
  · intro hrun
    rw [if_pos hrun] at hjr
    cases hjr
    simp
  · intro hne
    rw [if_neg hne] at hjr
    cases hjr
    rfl

/-- C9 witness: a single running job is swept to stopped with timestamp 9. -/
theorem resetStuckJobs_spec_witness :
    ∃ jr : StoredJob, ((resetStuckJobs 9 [⟨1, JobStatus.running, none⟩]).1)[0]? = some jr ∧
      jr.status = JobStatus.stopped ∧ jr.completedAt ≠ none := by
  refine ⟨⟨1, JobStatus.stopped, some 9⟩, by decide, ?_, ?_⟩
  · exact (((resetStuckJobs_spec 9 [⟨1, JobStatus.running, none⟩]).2.1 0
      ⟨1, JobStatus.running, none⟩ ⟨1, JobStatus.stopped, some 9⟩ (by decide) (by decide)).1 rfl).1
  · exact (((resetStuckJobs_spec 9 [⟨1, JobStatus.running, none⟩]).2.1 0
      ⟨1, JobStatus.running, none⟩ ⟨1, JobStatus.stopped, some 9⟩ (by decide) (by decide)).1 rfl).2.1

/-- C10: with discoverNew explicitly false, a run starts no page fetch and
its entire effect trace is the job-row creation, the totalProducts write
exactly when the Phase 2 refresh selection is nonempty, and the single
finalization (status completed, zero counts); in particular no product row is
mutated or created, no price-history entry appended and no notification
created (no inventory effect at all). -/
theorem runCrawl_discoverOff (env : CrawlEnv) (opts : CrawlOptions)
    (h : opts.discoverNew = some false) :
    (runCrawl env opts).effects =
        [Effect.createJob JobStatus.running]
        ++ (if 0 < (phase2Selected env opts).length then
              [Effect.updateJobTotal env.insertId (phase2Selected env opts).length]
            else [])
        ++ [Effect.finalizeJob env.insertId JobStatus.completed 0 0] ∧
    (runCrawl env opts).fetches = [] ∧
    ((runCrawl env opts).effects).countP isInventoryEffect = 0 := by
  have hd : discoPhase env opts = initDisco env := by
    rw [discoPhase, h]; simp
  have heff : (runCrawl env opts).effects =
      [Effect.createJob JobStatus.running]
      ++ (if 0 < (phase2Selected env opts).length then
            [Effect.updateJobTotal env.insertId (phase2Selected env opts).length]
          else [])
      ++ [Effect.finalizeJob env.insertId JobStatus.completed 0 0] := by
    simp only [runCrawl, hd, h, runCrawlFinalize, initDisco]
    split
    · simp_all
    · simp_all
  refine ⟨heff, ?_, ?_⟩
  · simp only [runCrawl, hd]
    split <;> rfl
  · rw [heff]
    split <;> simp [isInventoryEffect, List.countP_append, List.countP_cons]

/-- C10 witness: the discovery-off run over a store holding one stale active
product writes totalProducts = 1 and nothing else besides the job lifecycle. -/
theorem runCrawl_discoverOff_witness :
    optsNoDiscover.discoverNew = some false ∧
    (runCrawl envOneStale optsNoDiscover).fetches = [] ∧
    ((runCrawl envOneStale optsNoDiscover).effects).countP isInventoryEffect = 0 :=
  ⟨rfl, (runCrawl_discoverOff envOneStale optsNoDiscover rfl).2.1,
   (runCrawl_discoverOff envOneStale optsNoDiscover rfl).2.2⟩

end CWTracker
